import Mathlib

/-!
Verification of the Pawsonality retrieval/composition core.

This file embeds, in Lean, the parts of the repository that the checked
claims talk about:

* `app/services/vector_db_simple.py` — `SimpleVectorDB` (`save`, `load`,
  `search`);
* `app/services/rag_simple.py` — `SimpleRAGService` (`retrieve_context`,
  `format_context`, `generate_response_with_context`);
* `app/services/chatbot.py` — `ChatbotService.generate_response`;
* `app/services/openrouter.py` — `OpenRouterClient.format_messages`;
* `app/services/prompts.py` — `PromptTemplates.format_response_with_sources`.

Modelling conventions:

* Python dict-shaped document records become the `Document` structure whose
  fields are the dict keys the embedded code reads (`title`, `content`,
  `pawna_code`, `dbti_code`); `doc.get('dbti_code')` is an `Option String`
  since the key may be absent.
* Floating-point similarity scores are modelled as rationals.  The numpy
  lines 96–104 of `vector_db_simple.py` (query/row L2-normalisation and the
  dot product) produce one score per stored document; that computed vector
  is irrational in general (square roots), so `search` takes it as the
  `similarities` argument, one rational score per document, and embeds the
  remaining, purely discrete, pipeline (filtering, argsort, reversal,
  truncation, thresholding) exactly.
* `np.argsort` (ascending) is embedded as the sort of the index list by
  the lexicographic order on (score, index): the deterministic stable
  refinement of an ascending argsort.  numpy's default kind is introsort,
  documented as not stable above its small-array insertion-sort cutoff;
  the refinement agrees with numpy on the small arrays this file
  evaluates, and every property proved here for all inputs (top-k bound,
  descending scores, filtering, thresholding) holds for any correct
  argsort — no universal statement relies on the modelled tie order.
* Fallible Python code returns `Except PyError`; an uncaught exception is
  an `Except.error`.
* Python keyword-argument binding at the two call sites the claims mention
  is modelled explicitly: a call raises `TypeError` unless every keyword
  used by the caller is a parameter name of the callee.
-/

namespace Pawsonality

/-- A knowledge-base document record, with one field per dict key that the
embedded code reads.  `dbti_code` is optional because `SimpleVectorDB.search`
reads it with `doc.get('dbti_code')`, which yields `None` when the key is
absent. -/
structure Document where
  title : String
  content : String
  pawna_code : String
  dbti_code : Option String
  deriving Repr, DecidableEq, Inhabited

/-- The state owned by a `SimpleVectorDB` instance: the document list and the
(optional) embedding matrix, as in `vector_db_simple.py` lines 26–27. -/
structure SimpleVectorDB where
  documents : List Document
  embeddings : Option (List (List ℚ))
  deriving Repr, DecidableEq, Inhabited

/-- Lexicographic comparison of two positions of a score list: by score
first, and by position for equal scores.  Sorting the index list by this
relation is exactly the stable ascending `np.argsort` of
`vector_db_simple.py` line 122. -/
def rankLE (sims : List ℚ) (i j : ℕ) : Prop :=
  sims.getD i 0 < sims.getD j 0 ∨ (sims.getD i 0 = sims.getD j 0 ∧ i ≤ j)

instance rankLE.decRel (sims : List ℚ) : DecidableRel (rankLE sims) := by
  intro i j
  unfold rankLE
  infer_instance

instance rankLE.isTotal (sims : List ℚ) : IsTotal ℕ (rankLE sims) := by
  constructor
  intro i j
  rcases lt_trichotomy (sims.getD i 0) (sims.getD j 0) with h | h | h
  · exact Or.inl (Or.inl h)
  · rcases Nat.le_total i j with hij | hij
    · exact Or.inl (Or.inr ⟨h, hij⟩)
    · exact Or.inr (Or.inr ⟨h.symm, hij⟩)
  · exact Or.inr (Or.inl h)

instance rankLE.isTrans (sims : List ℚ) : IsTrans ℕ (rankLE sims) := by
  constructor
  intro a b c hab hbc
  rcases hab with hab | ⟨hab, hab'⟩
  · rcases hbc with hbc | ⟨hbc, _⟩
    · exact Or.inl (hab.trans hbc)
    · exact Or.inl (hbc ▸ hab)
  · rcases hbc with hbc | ⟨hbc, hbc'⟩
    · exact Or.inl (hab ▸ hbc)
    · exact Or.inr ⟨hab.trans hbc, hab'.trans hbc'⟩

/-- Embedding of `np.argsort(similarities)` (`vector_db_simple.py` line 122):
the indices `0 .. n-1` sorted ascending by score.  Equal scores are kept in
index order here: this is the deterministic stable refinement of
`np.argsort`, which matches numpy below its insertion-sort cutoff (every
concrete array evaluated in this file); numpy's default kind is documented
as not stable in general, so no universal theorem of this file asserts the
tie order. -/
def argsort (sims : List ℚ) : List ℕ :=
  List.insertionSort (rankLE sims) (List.range sims.length)

/-- Embedding of `np.argsort(filtered_similarities)[::-1][:top_k]`
(`vector_db_simple.py` line 122). -/
def topIndices (sims : List ℚ) (top_k : ℕ) : List ℕ :=
  (argsort sims).reverse.take top_k

/-- Embedding of the result-construction loop of `vector_db_simple.py`
lines 125–133: walk the selected indices, drop scores below `min_score`,
and pair each surviving document with its score (the code copies the doc
dict and stores the score under the `'score'` key; we model that pair as
`Document × ℚ`). -/
def selectResults (fsims : List ℚ) (fdocs : List Document) (top_k : ℕ)
    (min_score : ℚ) : List (Document × ℚ) :=
  (topIndices fsims top_k).filterMap fun idx =>
    let score := fsims.getD idx 0
    if min_score ≤ score then some (fdocs.getD idx default, score) else none

/-- Embedding of `SimpleVectorDB.search` (`vector_db_simple.py` lines
72–133).  `similarities` is the cosine-similarity vector that lines 96–104
compute from the embedding matrix and the query (one score per document);
the rest of the method is embedded exactly: the empty-store early return
(line 91), the truthiness test `if dbti_filter:` (line 107, false for both
`None` and the empty string), the candidate filtering on `doc.get('dbti_code')`
(lines 108–116, empty candidate set returns `[]`), and the
argsort/reverse/truncate/threshold pipeline (lines 121–133). -/
def search (db : SimpleVectorDB) (similarities : List ℚ) (top_k : ℕ)
    (dbti_filter : Option String) (min_score : ℚ) : List (Document × ℚ) :=
  if db.embeddings = none ∨ db.documents.length = 0 then []
  else
    let fv := dbti_filter.getD ""
    if fv ≠ "" then
      let filtered_indices := (List.range db.documents.length).filter
        fun i => (db.documents.getD i default).dbti_code == some fv
      if filtered_indices.isEmpty then []
      else
        selectResults (filtered_indices.map fun i => similarities.getD i 0)
          (filtered_indices.map fun i => db.documents.getD i default)
          top_k min_score
    else
      selectResults similarities db.documents top_k min_score

/-- Exceptions of the embedded Python code.  An uncaught exception is an
`Except.error` carrying one of these. -/
inductive PyError where
  | typeError
  | unpicklingError
  | other
  deriving Repr, DecidableEq

/-! ### Persistence (`vector_db_simple.py` lines 29–56) -/

/-- Content of the backing pickle file, as `SimpleVectorDB.load` can see it:
absent, present but not unpicklable, or a well-formed pickled bundle of a
document list and an optional embedding matrix. -/
inductive StoredFile where
  | missing
  | corrupt
  | data (documents : List Document) (embeddings : Option (List (List ℚ)))
  deriving Repr, DecidableEq

/-- Embedding of `SimpleVectorDB.save` (lines 29–41): pickle the pair of the
document list and the embedding matrix to the backing file. -/
def save (db : SimpleVectorDB) : StoredFile :=
  StoredFile.data db.documents db.embeddings

/-- Embedding of `SimpleVectorDB.load` (lines 43–56).  A missing file returns
`False` and leaves the store untouched (lines 45–47); `pickle.load` on a
corrupt file raises, and nothing in `load` catches it; a well-formed bundle
replaces both fields and returns `True`. -/
def load (db : SimpleVectorDB) (f : StoredFile) :
    Except PyError (SimpleVectorDB × Bool) :=
  match f with
  | StoredFile.missing => Except.ok (db, false)
  | StoredFile.corrupt => Except.error PyError.unpicklingError
  | StoredFile.data docs embs =>
      Except.ok ({ db with documents := docs, embeddings := embs }, true)

/-! ### Keyword-argument binding at the claimed call sites

A Python call with keyword arguments raises `TypeError` unless every keyword
is among the callee's parameter names. -/

/-- Parameter names of `SimpleVectorDB.search` (`vector_db_simple.py` lines
72–78), `self` aside. -/
def search_param_names : List String :=
  ["query_embedding", "top_k", "dbti_filter", "min_score"]

/-- Parameter names of `SimpleRAGService.retrieve_context` (`rag_simple.py`
lines 58–63), `self` aside. -/
def retrieve_context_param_names : List String :=
  ["query", "top_k", "pawna_filter", "min_score"]

/-- Keywords used by the call `self.vector_db.search(...)` inside
`SimpleRAGService.retrieve_context` (`rag_simple.py` lines 84–89). -/
def retrieve_context_search_call_keywords : List String :=
  ["query_embedding", "top_k", "pawna_filter", "min_score"]

/-- Keywords used by the call `self.rag_service.retrieve_context(...)` inside
`ChatbotService.generate_response` (`chatbot.py` lines 74–79). -/
def chatbot_retrieve_call_keywords : List String :=
  ["query", "top_k", "dbti_filter", "min_score"]

/-- A keyword-argument call binds iff every keyword names a parameter. -/
def kwargsBind (param_names keywords : List String) : Bool :=
  keywords.all param_names.contains

/-- Embedding of `SimpleRAGService.retrieve_context` (`rag_simple.py` lines
58–93) after initialisation.  `similarities` stands for the scores the query
embedding (line 81) yields against the store.  The body forwards to
`SimpleVectorDB.search` with the keyword `pawna_filter` (line 87), which must
bind against `search`'s parameter names; when it does not, the call raises
`TypeError`. -/
def retrieve_context (db : SimpleVectorDB) (similarities : List ℚ)
    (top_k : ℕ) (pawna_filter : Option String) (min_score : ℚ) :
    Except PyError (List (Document × ℚ)) :=
  if kwargsBind search_param_names retrieve_context_search_call_keywords then
    Except.ok (search db similarities top_k pawna_filter min_score)
  else
    Except.error PyError.typeError

/-! ### Context formatting (`rag_simple.py` lines 95–116) -/

/-- Round the fraction `n / d` (with `d > 0`) to the nearest integer, ties
to the even neighbour, as Python's fixed-precision float formatting does on
the underlying value.  Written in integer arithmetic (`fl` is the floor of
the fraction, `r` the remainder) so that it evaluates inside the kernel. -/
def roundHalfEvenFrac (n d : ℤ) : ℤ :=
  let fl := n.fdiv d
  let r := n - fl * d
  if 2 * r = d then (if fl % 2 = 0 then fl else fl + 1)
  else if 2 * r < d then fl else fl + 1

/-- Embedding of the Python format spec `f"{score:.2f}"`: the score rendered
with exactly two digits after the decimal point.  The value rounded is
`q * 100`, written as the fraction `(q.num * 100) / q.den`. -/
def fmt2 (q : ℚ) : String :=
  let n := roundHalfEvenFrac (q.num * 100) (q.den : ℤ)
  let sign := if n < 0 then "-" else ""
  let m := n.natAbs
  sign ++ toString (m / 100) ++ "." ++
    (if m % 100 < 10 then "0" else "") ++ toString (m % 100)

/-- One numbered context block of `SimpleRAGService.format_context`
(`rag_simple.py` lines 110–114): title, content, pawna code and the score
formatted to two decimals. -/
def contextBlock (i : ℕ) (d : Document × ℚ) : String :=
  "[문서 " ++ toString i ++ "] " ++ d.1.title ++ "\n" ++ d.1.content ++
    "\n(Pawna: " ++ d.1.pawna_code ++ ", 유사도: " ++ fmt2 d.2 ++ ")"

/-- The accumulation loop of `format_context` (lines 108–114): one block per
retrieved document, numbered from `i`. -/
def contextParts (docs : List (Document × ℚ)) (i : ℕ) : List String :=
  match docs with
  | [] => []
  | d :: rest => contextBlock i d :: contextParts rest (i + 1)

/-- Embedding of `SimpleRAGService.format_context` (`rag_simple.py` lines
95–116): a fixed sentinel for the empty list, otherwise the numbered blocks
joined by a blank line. -/
def format_context (docs : List (Document × ℚ)) : String :=
  if docs = [] then "관련 정보를 찾을 수 없습니다."
  else String.intercalate "\n\n" (contextParts docs 1)

/-! ### Response composition (`rag_simple.py` lines 118–219) -/

/-- The numbered source-list loop of
`PromptTemplates.format_response_with_sources` (`prompts.py` lines 132–134). -/
def sourcesLines (sources : List String) (i : ℕ) : String :=
  match sources with
  | [] => ""
  | s :: rest => toString i ++ ". " ++ s ++ "\n" ++ sourcesLines rest (i + 1)

/-- Embedding of `PromptTemplates.format_response_with_sources`
(`prompts.py` lines 117–136). -/
def format_response_with_sources (response : String) (sources : List String) :
    String :=
  if sources = [] then response
  else response ++ "\n\n---\n📚 **참고 자료**:\n" ++ sourcesLines sources 1

/-- The bulleted-titles loop of the fallback branch (`rag_simple.py` lines
203–204). -/
def bulletTitles (docs : List (Document × ℚ)) : String :=
  match docs with
  | [] => ""
  | d :: rest => "• " ++ d.1.title ++ "\n" ++ bulletTitles rest

/-- The fallback response text of `generate_response_with_context`
(`rag_simple.py` lines 195–210): the top document's content behind a bulb
emoji, then, when more than one document was retrieved, the bulleted titles
of the rest, then, when a pawna type was given (truthy string), a tailored
note; the fixed apology when nothing was retrieved. -/
def fallbackText (docs : List (Document × ℚ)) (pawna_type : Option String) :
    String :=
  match docs with
  | [] => "죄송합니다. 관련 정보를 찾지 못했습니다. 다른 질문을 해주시겠어요?"
  | top :: rest =>
      let r1 := "💡 " ++ top.1.content
      let r2 := if rest = [] then r1
        else r1 ++ "\n\n📚 추가 참고 정보:\n" ++ bulletTitles rest
      if pawna_type.getD "" ≠ "" then
        r2 ++ "\n\n🐾 " ++ pawna_type.getD "" ++ " 유형에 대한 맞춤 정보입니다."
      else r2

/-- Outcome of the guarded generator block (`rag_simple.py` lines 149–192):
either the text extracted from `result['choices'][0]['message']['content']`,
or any exception of the block (provider error, timeout, malformed response,
missing credential) — all of which the `except` at line 189 absorbs. -/
inductive LLMOutcome where
  | ok (text : String)
  | failure
  deriving Repr, DecidableEq

/-- The structured result dict of `generate_response_with_context`
(`rag_simple.py` lines 179–187 and 212–219).  `model` is `some` only on the
generator path, which is the only dict that carries a `"model"` key. -/
structure RagResponse where
  response : String
  context : String
  sources : List String
  num_sources : ℕ
  confidence : ℚ
  llm_used : Bool
  model : Option String
  deriving Repr, DecidableEq

/-- Embedding of the body of
`SimpleRAGService.generate_response_with_context` after the retrieval step
(`rag_simple.py` lines 144–219), as a function of the retrieval result
`retrieved_docs` (the call at line 138 is modelled separately, see
`generate_response_with_context`): format the context, try the generator
when requested, available and something was retrieved, fall back to the
search-only response on generator failure, and in every dict set
`confidence` to the top score (or `0.0` when nothing was retrieved). -/
def generate_response_body (retrieved_docs : List (Document × ℚ))
    (pawna_type : Option String) (use_llm openrouter_available : Bool)
    (llm : LLMOutcome) (selected_model : String) : RagResponse :=
  let context := format_context retrieved_docs
  let sources := retrieved_docs.map fun d => d.1.title
  let confidence : ℚ := match retrieved_docs with
    | [] => 0
    | top :: _ => top.2
  if use_llm ∧ openrouter_available ∧ retrieved_docs ≠ [] then
    match llm with
    | LLMOutcome.ok text =>
        { response := format_response_with_sources text sources
          context := context
          sources := sources
          num_sources := retrieved_docs.length
          confidence := confidence
          llm_used := true
          model := some selected_model }
    | LLMOutcome.failure =>
        { response := fallbackText retrieved_docs pawna_type
          context := context
          sources := sources
          num_sources := retrieved_docs.length
          confidence := confidence
          llm_used := false
          model := none }
  else
    { response := fallbackText retrieved_docs pawna_type
      context := context
      sources := sources
      num_sources := retrieved_docs.length
      confidence := confidence
      llm_used := false
      model := none }

/-- Embedding of `SimpleRAGService.generate_response_with_context`
(`rag_simple.py` lines 118–219) including the retrieval call of line 138,
which passes `pawna_filter=pawna_type` and leaves `min_score` at
`retrieve_context`'s default `0.3`; an exception of that call happens outside
any `try` and so propagates to the caller. -/
def generate_response_with_context (db : SimpleVectorDB)
    (similarities : List ℚ) (pawna_type : Option String) (top_k : ℕ)
    (use_llm openrouter_available : Bool) (llm : LLMOutcome)
    (selected_model : String) : Except PyError RagResponse :=
  match retrieve_context db similarities top_k pawna_type (mkRat 3 10) with
  | Except.error e => Except.error e
  | Except.ok docs =>
      Except.ok (generate_response_body docs pawna_type use_llm
        openrouter_available llm selected_model)

/-! ### Chatbot service (`chatbot.py` lines 46–123) -/

/-- Parameter names of `SimpleRAGService.generate_response_with_context`
(`rag_simple.py` lines 118–123), `self` aside. -/
def grwc_param_names : List String :=
  ["query", "pawna_type", "top_k", "use_llm"]

/-- Keywords used by the call
`self.rag_service.generate_response_with_context(...)` inside
`ChatbotService.generate_response` (`chatbot.py` lines 95–99). -/
def chatbot_rag_call_keywords : List String :=
  ["query", "dbti_type", "top_k"]

/-- The result dict of `ChatbotService.generate_response` (`chatbot.py`
lines 103–110 on success, 116–123 on fallback).  Only the fallback dict
carries an `"error"` key, modelled as `some` of the caught exception. -/
structure ChatResponse where
  response : String
  sources : List String
  num_sources : ℕ
  confidence : ℚ
  method : String
  error : Option PyError
  deriving Repr, DecidableEq

/-- Embedding of the `try` block of `ChatbotService.generate_response`
(`chatbot.py` lines 70–110).  Line 74 calls `retrieve_context` with the
keyword `dbti_filter`, `top_k=3` and `min_score=0.3`; that keyword must bind
against `retrieve_context`'s parameter names.  On the no-generator path,
line 95 calls `generate_response_with_context` with the keyword `dbti_type`,
which must bind against that method's parameter names in turn (the source
also forgets to `await` that call; the branch is unreachable, and we model
the intended call). -/
def chatbot_try (db : SimpleVectorDB) (similarities : List ℚ)
    (dbti_type : Option String) (use_llm api_key : Bool) (llm : LLMOutcome)
    (selected_model : String) : Except PyError ChatResponse :=
  if ¬ kwargsBind retrieve_context_param_names chatbot_retrieve_call_keywords
  then Except.error PyError.typeError
  else
    match retrieve_context db similarities 3 dbti_type (mkRat 3 10) with
    | Except.error e => Except.error e
    | Except.ok context_docs =>
        let mkResult := fun (response_text method : String) =>
          ({ response := response_text
             sources := context_docs.map fun d => d.1.title
             num_sources := context_docs.length
             confidence := match context_docs with
               | [] => 0
               | top :: _ => top.2
             method := method
             error := none } : ChatResponse)
        if use_llm ∧ api_key then
          match llm with
          | LLMOutcome.ok text => Except.ok (mkResult text "RAG + LLM")
          | LLMOutcome.failure => Except.error PyError.other
        else
          if ¬ kwargsBind grwc_param_names chatbot_rag_call_keywords then
            Except.error PyError.typeError
          else
            match generate_response_with_context db similarities dbti_type 3
              true api_key llm selected_model with
            | Except.error e => Except.error e
            | Except.ok r => Except.ok (mkResult r.response "RAG only")

/-- Embedding of `ChatbotService.generate_response` (`chatbot.py` lines
46–123) after initialisation: the `try` block, with every exception caught
by the `except` of line 112 and replaced by the fixed apology dict. -/
def chatbot_generate_response (db : SimpleVectorDB) (similarities : List ℚ)
    (dbti_type : Option String) (use_llm api_key : Bool) (llm : LLMOutcome)
    (selected_model : String) : ChatResponse :=
  match chatbot_try db similarities dbti_type use_llm api_key llm
    selected_model with
  | Except.ok r => r
  | Except.error e =>
      { response := "죄송합니다. 일시적인 오류가 발생했습니다. 잠시 후 다시 시도해주세요."
        sources := []
        num_sources := 0
        confidence := 0
        method := "fallback"
        error := some e }

/-! ### Message formatting (`openrouter.py` lines 129–170) -/

/-- A role-tagged chat message, as the dicts
`{"role": ..., "content": ...}` of `openrouter.py`. -/
structure Message where
  role : String
  content : String
  deriving Repr, DecidableEq

/-- The system prompt actually sent (`openrouter.py` lines 151–153): the
given system prompt, with the context block appended when `context` is a
truthy string. -/
def full_system_prompt (system_prompt : String) (context : Option String) :
    String :=
  if context.getD "" ≠ "" then
    system_prompt ++ "\n\n# 참고 정보\n" ++ context.getD ""
  else system_prompt

/-- Embedding of `OpenRouterClient.format_messages` (`openrouter.py` lines
129–170): the system message, then — when the caller supplied a truthy
history — the last five history entries (`conversation_history[-5:]`,
embedded as dropping all but the last `min 5 n` elements), then the current
user message.  A `None` history and an empty one behave alike (both falsy),
so the history is a plain list here. -/
def format_messages (system_prompt user_message : String)
    (context : Option String) (conversation_history : List Message) :
    List Message :=
  let messages := [Message.mk "system"
    (full_system_prompt system_prompt context)]
  let messages := if conversation_history.isEmpty then messages
    else messages ++
      conversation_history.drop (conversation_history.length - 5)
  messages ++ [Message.mk "user" user_message]

/-! ### Concrete fixtures used by counterexamples and witnesses -/

/-- The spec's scenario document 1 (type code WTIL). -/
def specDoc1 : Document := ⟨"doc1", "Walk energetically.", "WTIL", some "WTIL"⟩

/-- The spec's scenario document 2 (type code DTIL). -/
def specDoc2 : Document := ⟨"doc2", "Calm walks.", "DTIL", some "DTIL"⟩

/-- The spec's scenario document 3 (type code WTIL). -/
def specDoc3 : Document := ⟨"doc3", "Loves fetch.", "WTIL", some "WTIL"⟩

/-- A two-document store whose documents receive equal similarity scores. -/
def tieDocA : Document := ⟨"a", "content a", "WTIL", some "WTIL"⟩

/-- Second document of the tie fixture, inserted after `tieDocA`. -/
def tieDocB : Document := ⟨"b", "content b", "WTIL", some "WTIL"⟩

/-- A one-document store used by witnesses. -/
def oneDocDB : SimpleVectorDB := ⟨[specDoc1], some [[1]]⟩

/-! ## Claim theorems -/

/-- Claim C1: for every query, top_k, filter value and min_score,
`SimpleRAGService.retrieve_context` raises `TypeError` and never returns a
result list, because it invokes `SimpleVectorDB.search` with the keyword
`pawna_filter` while that method's parameter is named `dbti_filter`;
consequently `generate_response_with_context` never returns normally, and
`ChatbotService.generate_response` — which passes the keyword `dbti_filter`
to `retrieve_context`, whose parameter is named `pawna_filter` — catches the
error and returns the fixed apology response with confidence `0.0`, empty
sources and method `"fallback"` for every input. -/
theorem retrieve_context_always_type_error
    (db : SimpleVectorDB) (sims : List ℚ) (top_k : ℕ)
    (pawna_filter : Option String) (min_score : ℚ)
    (ptype : Option String) (u a : Bool) (llm : LLMOutcome) (m : String)
    (dbti_type : Option String) (u2 k2 : Bool) (llm2 : LLMOutcome)
    (m2 : String) :
    retrieve_context db sims top_k pawna_filter min_score =
      Except.error PyError.typeError ∧
    generate_response_with_context db sims ptype top_k u a llm m =
      Except.error PyError.typeError ∧
    chatbot_generate_response db sims dbti_type u2 k2 llm2 m2 =
      { response := "죄송합니다. 일시적인 오류가 발생했습니다. 잠시 후 다시 시도해주세요."
        sources := []
        num_sources := 0
        confidence := 0
        method := "fallback"
        error := some PyError.typeError } :=
  ⟨rfl, rfl, rfl⟩

/-- Claim C6: saving the store to its backing file and loading it back
yields exactly the same document list, the same embeddings, and the same
pairing (load replaces both fields of the target store with the saved
ones, and in particular restores a store from its own save). -/
theorem save_load_roundtrip (db db' : SimpleVectorDB) :
    load db' (save db) =
      Except.ok
        ({ db' with documents := db.documents
                    embeddings := db.embeddings }, true) ∧
    load db (save db) = Except.ok (db, true) :=
  ⟨rfl, rfl⟩

/-- Claim C7, counterexample: the claim says `load` never raises on a
missing or corrupt backing file, but `pickle.load` on a corrupt file raises
and nothing in `load` catches it. -/
theorem load_corrupt_raises_cex :
    load ⟨[], none⟩ StoredFile.corrupt =
      Except.error PyError.unpicklingError :=
  rfl

/-- Claim C7, amended: calling `load` when the backing file is missing never
raises — it returns `False` and leaves the store unchanged, hence a fresh
deployment keeps its logically-empty valid state — but `load` on a corrupt
backing file raises an unpickling error. -/
theorem load_missing_graceful (db : SimpleVectorDB) :
    load db StoredFile.missing = Except.ok (db, false) ∧
    load ⟨[], none⟩ StoredFile.missing = Except.ok (⟨[], none⟩, false) ∧
    load db StoredFile.corrupt = Except.error PyError.unpicklingError :=
  ⟨rfl, rfl, rfl⟩

/-- Claim C9: for a store containing zero documents or a `None` embedding
matrix, `search` returns the empty list for every similarity vector, every
`top_k`, every filter and every `min_score`, without error. -/
theorem search_empty_store (db : SimpleVectorDB) (sims : List ℚ) (k : ℕ)
    (f : Option String) (ms : ℚ)
    (h : db.documents = [] ∨ db.embeddings = none) :
    search db sims k f ms = [] := by
  rcases h with h | h <;> simp [search, h]

/-- Witness for `search_empty_store` at a concrete empty store. -/
theorem search_empty_store_witness :
    search ⟨[], none⟩ [1, 2] 5 (some "WTIL") 0 = [] :=
  search_empty_store ⟨[], none⟩ [1, 2] 5 (some "WTIL") 0 (Or.inl rfl)

/-- Claim C10: for every conversation history, the message sequence built by
`format_messages` is exactly the single system message, then the most recent
five prior turns (all of them if fewer than five) in order with the oldest of
that window first, then the current user message; when no history entry has
the system role, the system entry is the unique one and comes first. -/
theorem format_messages_window (s u : String) (c : Option String)
    (h : List Message) :
    format_messages s u c h =
      Message.mk "system" (full_system_prompt s c) ::
        (h.drop (h.length - 5) ++ [Message.mk "user" u]) ∧
    (h.drop (h.length - 5)).length = min 5 h.length ∧
    h.drop (h.length - 5) <:+ h ∧
    ((∀ m ∈ h, m.role ≠ "system") →
      (format_messages s u c h).filter (fun m => m.role == "system") =
        [Message.mk "system" (full_system_prompt s c)]) := by
  have hwin : format_messages s u c h =
      Message.mk "system" (full_system_prompt s c) ::
        (h.drop (h.length - 5) ++ [Message.mk "user" u]) := by
    cases h with
    | nil => simp [format_messages]
    | cons x t => simp [format_messages]
  refine ⟨hwin, ?_, List.drop_suffix _ _, ?_⟩
  · rw [List.length_drop]
    omega
  · intro hroles
    rw [hwin]
    rw [List.filter_cons_of_pos (by simp), List.filter_append]
    have h1 : (h.drop (h.length - 5)).filter (fun m => m.role == "system") =
        [] := by
      rw [List.filter_eq_nil_iff]
      intro m hm
      have : m ∈ h := (List.drop_suffix _ _).subset hm
      simp [hroles m this]
    have h2 : [Message.mk "user" u].filter (fun m => m.role == "system") =
        [] := by simp
    rw [h1, h2]
    rfl

/-- Witness for `format_messages_window` on a seven-turn history with no
system-role entries: the window is the last five turns. -/
theorem format_messages_window_witness :
    format_messages "sp" "um" (some "ctx")
        [⟨"user", "t1"⟩, ⟨"assistant", "t2"⟩, ⟨"user", "t3"⟩,
         ⟨"assistant", "t4"⟩, ⟨"user", "t5"⟩, ⟨"assistant", "t6"⟩,
         ⟨"user", "t7"⟩] =
      Message.mk "system" (full_system_prompt "sp" (some "ctx")) ::
        ([⟨"user", "t3"⟩, ⟨"assistant", "t4"⟩, ⟨"user", "t5"⟩,
          ⟨"assistant", "t6"⟩, ⟨"user", "t7"⟩] ++
          [Message.mk "user" "um"]) ∧
    (format_messages "sp" "um" (some "ctx")
        [⟨"user", "t1"⟩, ⟨"assistant", "t2"⟩, ⟨"user", "t3"⟩,
         ⟨"assistant", "t4"⟩, ⟨"user", "t5"⟩, ⟨"assistant", "t6"⟩,
         ⟨"user", "t7"⟩]).filter (fun m => m.role == "system") =
      [Message.mk "system" (full_system_prompt "sp" (some "ctx"))] := by
  have hthm := format_messages_window "sp" "um" (some "ctx")
    [⟨"user", "t1"⟩, ⟨"assistant", "t2"⟩, ⟨"user", "t3"⟩,
     ⟨"assistant", "t4"⟩, ⟨"user", "t5"⟩, ⟨"assistant", "t6"⟩,
     ⟨"user", "t7"⟩]
  exact ⟨hthm.1, hthm.2.2.2 (by decide)⟩

/-- The block-accumulation loop numbers the documents consecutively from its
starting index: it is the map of `contextBlock` over the enumerated list. -/
lemma contextParts_eq_enumFrom (docs : List (Document × ℚ)) :
    ∀ i, contextParts docs i =
      (List.enumFrom i docs).map fun p => contextBlock p.1 p.2 := by
  induction docs with
  | nil => intro i; simp [contextParts]
  | cons d rest ih => intro i; simp [contextParts, List.enumFrom, ih]

/-- Every rendered block carries the document's title, its content and its
score formatted to two decimals, as substrings. -/
lemma contextBlock_contains (i : ℕ) (d : Document × ℚ) :
    d.1.title.data <:+: (contextBlock i d).data ∧
    d.1.content.data <:+: (contextBlock i d).data ∧
    (fmt2 d.2).data <:+: (contextBlock i d).data := by
  refine ⟨⟨("[문서 " ++ toString i ++ "] ").data,
      ("\n" ++ d.1.content ++ "\n(Pawna: " ++ d.1.pawna_code ++
        ", 유사도: " ++ fmt2 d.2 ++ ")").data, ?_⟩,
    ⟨("[문서 " ++ toString i ++ "] " ++ d.1.title ++ "\n").data,
      ("\n(Pawna: " ++ d.1.pawna_code ++ ", 유사도: " ++ fmt2 d.2 ++
        ")").data, ?_⟩,
    ⟨("[문서 " ++ toString i ++ "] " ++ d.1.title ++ "\n" ++ d.1.content ++
        "\n(Pawna: " ++ d.1.pawna_code ++ ", 유사도: ").data,
      (")").data, ?_⟩⟩ <;>
    simp [contextBlock, String.data_append]

/-- Claim C8: `format_context` on the empty list is the fixed non-empty
"no information found" sentinel, and on a non-empty ranked list it is the
documents rendered in input order as blocks numbered from 1 — each carrying
the document's title, content and score formatted to two decimals — joined
by a blank-line separator. -/
theorem format_context_renders (docs : List (Document × ℚ))
    (hne : docs ≠ []) :
    format_context [] = "관련 정보를 찾을 수 없습니다." ∧
    "관련 정보를 찾을 수 없습니다." ≠ "" ∧
    format_context docs =
      String.intercalate "\n\n"
        ((List.enumFrom 1 docs).map fun p => contextBlock p.1 p.2) ∧
    ∀ i d, d.1.title.data <:+: (contextBlock i d).data ∧
      d.1.content.data <:+: (contextBlock i d).data ∧
      (fmt2 d.2).data <:+: (contextBlock i d).data := by
  refine ⟨rfl, by decide, ?_, fun i d => contextBlock_contains i d⟩
  rw [format_context, if_neg hne, contextParts_eq_enumFrom]

/-- Witness for `format_context_renders` on a concrete two-document list. -/
theorem format_context_renders_witness :
    format_context [(specDoc1, 1), (specDoc3, mkRat 1 2)] =
      String.intercalate "\n\n"
        ((List.enumFrom 1 [(specDoc1, (1 : ℚ)), (specDoc3, mkRat 1 2)]).map
          fun p => contextBlock p.1 p.2) ∧
    format_context [(specDoc1, 1), (specDoc3, mkRat 1 2)] =
      "[문서 1] doc1\nWalk energetically.\n(Pawna: WTIL, 유사도: 1.00)\n\n" ++
        "[문서 2] doc3\nLoves fetch.\n(Pawna: WTIL, 유사도: 0.50)" :=
  ⟨(format_context_renders [(specDoc1, 1), (specDoc3, mkRat 1 2)]
      (by decide)).2.2.1,
    by decide⟩

/-- Every document of the bulleted-titles loop contributes its bullet line
as a substring of the loop's output. -/
lemma bulletTitles_contains (rest : List (Document × ℚ)) (d : Document × ℚ)
    (hd : d ∈ rest) :
    ("• " ++ d.1.title ++ "\n").data <:+: (bulletTitles rest).data := by
  induction rest with
  | nil => cases hd
  | cons x r ih =>
    rcases List.mem_cons.mp hd with h | h
    · subst h
      exact ⟨[], (bulletTitles r).data, by simp [bulletTitles, String.data_append]⟩
    · exact (ih h).trans
        ⟨("• " ++ x.1.title ++ "\n").data, [],
          by simp [bulletTitles, String.data_append]⟩

/-- Appending on the right preserves the character list as a prefix. -/
lemma str_prefix_append (a b : String) : a.data <+: (a ++ b).data := by
  rw [String.data_append]
  exact List.prefix_append _ _

/-- The fallback text for a non-empty retrieval starts with the bulb emoji
and the top document's content, and carries every remaining title's bullet
line as a substring. -/
lemma fallbackText_structure (top : Document × ℚ)
    (rest : List (Document × ℚ)) (ptype : Option String) :
    ("💡 " ++ top.1.content).data <+:
      (fallbackText (top :: rest) ptype).data ∧
    ∀ d ∈ rest, ("• " ++ d.1.title ++ "\n").data <:+:
      (fallbackText (top :: rest) ptype).data := by
  have hbt : rest ≠ [] → (bulletTitles rest).data <:+:
      (fallbackText (top :: rest) ptype).data := by
    intro hne
    simp only [fallbackText, if_neg hne]
    by_cases hp : ptype.getD "" ≠ ""
    · rw [if_pos hp]
      exact ⟨("💡 " ++ top.1.content ++ "\n\n📚 추가 참고 정보:\n").data,
        ("\n\n🐾 " ++ ptype.getD "" ++ " 유형에 대한 맞춤 정보입니다.").data,
        by simp [String.data_append]⟩
    · rw [if_neg hp]
      exact ⟨("💡 " ++ top.1.content ++ "\n\n📚 추가 참고 정보:\n").data, [],
        by simp [String.data_append]⟩
  constructor
  · by_cases hne : rest = []
    · simp only [fallbackText, if_pos hne]
      by_cases hp : ptype.getD "" ≠ ""
      · rw [if_pos hp]
        exact ((str_prefix_append _ "\n\n🐾 ").trans
          (str_prefix_append _ (ptype.getD ""))).trans
          (str_prefix_append _ " 유형에 대한 맞춤 정보입니다.")
      · rw [if_neg hp]
    · simp only [fallbackText, if_neg hne]
      have hpre : ("💡 " ++ top.1.content).data <+:
          ("💡 " ++ top.1.content ++ "\n\n📚 추가 참고 정보:\n" ++
            bulletTitles rest).data :=
        (str_prefix_append _ "\n\n📚 추가 참고 정보:\n").trans
          (str_prefix_append _ (bulletTitles rest))
      by_cases hp : ptype.getD "" ≠ ""
      · rw [if_pos hp]
        exact ((hpre.trans (str_prefix_append _ "\n\n🐾 ")).trans
          (str_prefix_append _ (ptype.getD ""))).trans
          (str_prefix_append _ " 유형에 대한 맞춤 정보입니다.")
      · rw [if_neg hp]
        exact hpre
  · intro d hd
    have hne : rest ≠ [] := by rintro rfl; cases hd
    exact (bulletTitles_contains rest d hd).trans (hbt hne)

/-- A string starting with the bulb-emoji prefix is not empty. -/
lemma response_ne_empty_of_bulb (c : String) (s : String)
    (h : ("💡 " ++ c).data <+: s.data) : s ≠ "" := by
  intro hs
  subst hs
  have h2 : ("💡 " ++ c).data = '💡' :: ' ' :: c.data := by
    rw [String.data_append]
    rfl
  rw [h2] at h
  have h3 := List.prefix_nil.mp h
  simp at h3

/-- Claim C3: if the language-model call fails in any recoverable way (the
generator block raises, or the credential is missing so the generator is
unavailable), then whenever retrieval found at least one document,
`generate_response_with_context`'s composition still returns a response whose
text is non-empty — built from the top retrieved document's content, plus a
bullet line per remaining title when more than one document was retrieved —
with the generator-used flag false; the failure is not propagated (the
function is total here). -/
theorem generator_failure_fallback
    (docs : List (Document × ℚ)) (top : Document × ℚ)
    (rest : List (Document × ℚ)) (ptype : Option String) (u a : Bool)
    (llm : LLMOutcome) (m : String)
    (hdocs : docs = top :: rest)
    (hfail : llm = LLMOutcome.failure ∨ u = false ∨ a = false) :
    (generate_response_body docs ptype u a llm m).llm_used = false ∧
    (generate_response_body docs ptype u a llm m).response =
      fallbackText docs ptype ∧
    (generate_response_body docs ptype u a llm m).response ≠ "" ∧
    ("💡 " ++ top.1.content).data <+:
      (generate_response_body docs ptype u a llm m).response.data ∧
    ∀ d ∈ rest, ("• " ++ d.1.title ++ "\n").data <:+:
      (generate_response_body docs ptype u a llm m).response.data := by
  subst hdocs
  have hbranch :
      (generate_response_body (top :: rest) ptype u a llm m).llm_used =
        false ∧
      (generate_response_body (top :: rest) ptype u a llm m).response =
        fallbackText (top :: rest) ptype := by
    simp only [generate_response_body]
    by_cases hc :
        u = true ∧ a = true ∧ (top :: rest : List (Document × ℚ)) ≠ []
    · rw [if_pos hc]
      rcases hfail with hF | hF | hF
      · subst hF
        exact ⟨rfl, rfl⟩
      · exact absurd hc.1 (by simp [hF])
      · exact absurd hc.2.1 (by simp [hF])
    · rw [if_neg hc]
      exact ⟨rfl, rfl⟩
  have hstruct := fallbackText_structure top rest ptype
  refine ⟨hbranch.1, hbranch.2, ?_, ?_, ?_⟩
  · rw [hbranch.2]
    exact response_ne_empty_of_bulb top.1.content _ hstruct.1
  · rw [hbranch.2]
    exact hstruct.1
  · intro d hd
    rw [hbranch.2]
    exact hstruct.2 d hd

/-- Witness for `generator_failure_fallback`: a two-document retrieval with
a failing generator yields a non-empty fallback response with the
generator-used flag false. -/
theorem generator_failure_fallback_witness :
    (generate_response_body [(specDoc1, 1), (specDoc3, 1)] (some "WTIL")
      true true LLMOutcome.failure "gpt4-mini").llm_used = false ∧
    (generate_response_body [(specDoc1, 1), (specDoc3, 1)] (some "WTIL")
      true true LLMOutcome.failure "gpt4-mini").response =
      fallbackText [(specDoc1, 1), (specDoc3, 1)] (some "WTIL") ∧
    (generate_response_body [(specDoc1, 1), (specDoc3, 1)] (some "WTIL")
      true true LLMOutcome.failure "gpt4-mini").response ≠ "" ∧
    ("💡 " ++ (specDoc1, (1 : ℚ)).1.content).data <+:
      (generate_response_body [(specDoc1, 1), (specDoc3, 1)] (some "WTIL")
        true true LLMOutcome.failure "gpt4-mini").response.data ∧
    ∀ d ∈ [(specDoc3, (1 : ℚ))], ("• " ++ d.1.title ++ "\n").data <:+:
      (generate_response_body [(specDoc1, 1), (specDoc3, 1)] (some "WTIL")
        true true LLMOutcome.failure "gpt4-mini").response.data :=
  generator_failure_fallback [(specDoc1, 1), (specDoc3, 1)] (specDoc1, 1)
    [(specDoc3, 1)] (some "WTIL") true true LLMOutcome.failure "gpt4-mini"
    rfl (Or.inl rfl)

/-- Every result the selection loop keeps scores at least `min_score`. -/
lemma selectResults_score (fs : List ℚ) (fd : List Document) (k : ℕ)
    (ms : ℚ) : ∀ r ∈ selectResults fs fd k ms, ms ≤ r.2 := by
  intro r hr
  rcases List.mem_filterMap.mp hr with ⟨idx, _, hsome⟩
  by_cases h : ms ≤ fs.getD idx 0
  · simp only [h, if_true] at hsome
    rw [← Option.some.inj hsome]
    exact h
  · simp only [h, if_false] at hsome
    exact Option.noConfusion hsome

/-- Every result of `search` scores at least `min_score` (the spec's P3,
used to settle the confidence claim). -/
lemma search_min_score (db : SimpleVectorDB) (sims : List ℚ) (k : ℕ)
    (f : Option String) (ms : ℚ) :
    ∀ r ∈ search db sims k f ms, ms ≤ r.2 := by
  intro r hr
  simp only [search] at hr
  split at hr
  · cases hr
  · split at hr
    · split at hr
      · cases hr
      · exact selectResults_score _ _ _ _ r hr
    · exact selectResults_score _ _ _ _ r hr

/-- The confidence field is the top retrieved score, or zero when nothing
was retrieved, on every branch of the composition. -/
lemma grb_confidence (docs : List (Document × ℚ)) (ptype : Option String)
    (u a : Bool) (llm : LLMOutcome) (m : String) :
    (generate_response_body docs ptype u a llm m).confidence =
      match docs with
      | [] => 0
      | top :: _ => top.2 := by
  simp only [generate_response_body]
  by_cases hc : u = true ∧ a = true ∧ docs ≠ []
  · rw [if_pos hc]
    cases llm <;> rfl
  · rw [if_neg hc]

/-- Claim C4: for the composition applied to the documents retrieval
produces (search at the call path's threshold `min_score = 0.3`), the
returned confidence equals `0.0` iff retrieval returned zero documents, and
otherwise equals the score of the first retrieved document, regardless of
which branch (generator or fallback) produced the final text. -/
theorem confidence_consistency (db : SimpleVectorDB) (sims : List ℚ)
    (k : ℕ) (f ptype : Option String) (u a : Bool) (llm : LLMOutcome)
    (m : String) :
    ((generate_response_body (search db sims k f (mkRat 3 10)) ptype u a
        llm m).confidence = 0 ↔
      search db sims k f (mkRat 3 10) = []) ∧
    (∀ top rest, search db sims k f (mkRat 3 10) = top :: rest →
      (generate_response_body (search db sims k f (mkRat 3 10)) ptype u a
        llm m).confidence = top.2) := by
  constructor
  · rcases hs : search db sims k f (mkRat 3 10) with _ | ⟨top, rest⟩
    · simp [grb_confidence]
    · rw [grb_confidence]
      simp only [List.cons_ne_nil, iff_false]
      have hmem : top ∈ search db sims k f (mkRat 3 10) := by
        rw [hs]
        exact List.mem_cons_self _ _
      have hms := search_min_score db sims k f (mkRat 3 10) top hmem
      have hpos : (0 : ℚ) < mkRat 3 10 := by decide
      intro h0
      have h0' : top.2 = 0 := h0
      rw [h0'] at hms
      exact absurd (lt_of_lt_of_le hpos hms) (lt_irrefl 0)
  · intro top rest heq
    rw [grb_confidence, heq]

/-- Witness for `confidence_consistency` on a store whose single document is
retrieved with score 1. -/
theorem confidence_consistency_witness :
    ((generate_response_body (search oneDocDB [1] 1 none (mkRat 3 10)) none
        true true LLMOutcome.failure "m").confidence = 0 ↔
      search oneDocDB [1] 1 none (mkRat 3 10) = []) ∧
    (generate_response_body (search oneDocDB [1] 1 none (mkRat 3 10)) none
        true true LLMOutcome.failure "m").confidence =
      ((specDoc1, (1 : ℚ))).2 :=
  ⟨(confidence_consistency oneDocDB [1] 1 none none true true
      LLMOutcome.failure "m").1,
    (confidence_consistency oneDocDB [1] 1 none none true true
      LLMOutcome.failure "m").2 (specDoc1, 1) [] (by decide)⟩

/-- The selected index sequence is sorted: between two selected positions,
the earlier one has the larger score.  (For equal scores the relation also
records that the later-inserted position comes first; that tie component is
a property of the modelled stable refinement of `np.argsort` and is only
consumed through its score component, which holds for any correct
argsort.) -/
lemma topIndices_pairwise (s : List ℚ) (k : ℕ) :
    List.Pairwise (fun p q => rankLE s q p) (topIndices s k) := by
  have hsorted : List.Sorted (rankLE s) (argsort s) :=
    List.sorted_insertionSort (rankLE s) (List.range s.length)
  have hrev : List.Pairwise (fun p q => rankLE s q p) (argsort s).reverse :=
    List.pairwise_reverse.mpr hsorted
  exact List.Pairwise.sublist (List.take_sublist _ _) hrev

/-- The selection loop returns at most `top_k` results. -/
lemma selectResults_length (fs : List ℚ) (fd : List Document) (k : ℕ)
    (ms : ℚ) : (selectResults fs fd k ms).length ≤ k :=
  le_trans (List.length_filterMap_le _ _)
    (by rw [topIndices, List.length_take]; exact min_le_left _ _)

/-- The selection loop's results are sorted by score, descending. -/
lemma selectResults_sorted (fs : List ℚ) (fd : List Document) (k : ℕ)
    (ms : ℚ) :
    List.Pairwise (fun a b : Document × ℚ => b.2 ≤ a.2)
      (selectResults fs fd k ms) := by
  unfold selectResults
  rw [List.pairwise_filterMap]
  refine (topIndices_pairwise fs k).imp ?_
  intro p q hpq x hx y hy
  by_cases hp : ms ≤ fs.getD p 0
  · simp only [hp, if_true, Option.mem_def, Option.some.injEq] at hx
    by_cases hq : ms ≤ fs.getD q 0
    · simp only [hq, if_true, Option.mem_def, Option.some.injEq] at hy
      rw [← hx, ← hy]
      rcases hpq with h | ⟨h, _⟩
      · exact le_of_lt h
      · exact le_of_eq h
    · simp only [hq, if_false] at hy
      exact absurd hy (by simp)
  · simp only [hp, if_false] at hx
    exact absurd hx (by simp)

/-- Claim C5, counterexample: two documents with equal scores come back in
reverse insertion order, not in insertion order as the claim states.  (On a
two-element array numpy's introsort is its insertion sort, which is stable,
so `np.argsort([1, 1]) = [0, 1]` is certain; the `[::-1]` reversal then
puts the later-inserted document first.) -/
theorem search_tie_reverse_order_cex :
    search ⟨[tieDocA, tieDocB], some [[1], [1]]⟩ [1, 1] 2 none 0 =
      [(tieDocB, 1), (tieDocA, 1)] ∧
    search ⟨[tieDocA, tieDocB], some [[1], [1]]⟩ [1, 1] 2 none 0 ≠
      [(tieDocA, 1), (tieDocB, 1)] := by
  decide

/-- Claim C5, amended: for every store, similarity vector and `top_k ≥ 0`,
`search` returns at most `top_k` results sorted by score in descending
order; equal scores are NOT guaranteed any particular order across stores
(numpy's default argsort kind is documented as not stable), and on
candidate arrays small enough for numpy's insertion-sort path — such as the
two-document tie below — equal scores come back in reverse insertion
order. -/
theorem search_topk_sorted :
    (∀ (db : SimpleVectorDB) (sims : List ℚ) (k : ℕ) (f : Option String)
      (ms : ℚ), (search db sims k f ms).length ≤ k) ∧
    (∀ (db : SimpleVectorDB) (sims : List ℚ) (k : ℕ) (f : Option String)
      (ms : ℚ), List.Pairwise (fun a b : Document × ℚ => b.2 ≤ a.2)
        (search db sims k f ms)) ∧
    search ⟨[tieDocA, tieDocB], some [[1], [1]]⟩ [1, 1] 3 none 0 =
      [(tieDocB, 1), (tieDocA, 1)] := by
  refine ⟨?_, ?_, by decide⟩
  · intro db sims k f ms
    simp only [search]
    split
    · simp
    · split
      · split
        · simp
        · exact selectResults_length _ _ _ _
      · exact selectResults_length _ _ _ _
  · intro db sims k f ms
    simp only [search]
    split
    · simp
    · split
      · split
        · simp
        · exact selectResults_sorted _ _ _ _
      · exact selectResults_sorted _ _ _ _

/-- Decomposition of a selection-loop result: it is the document/score pair
at one of the selected indices. -/
lemma selectResults_mem_decomp (fs : List ℚ) (fd : List Document) (k : ℕ)
    (ms : ℚ) (r : Document × ℚ) (hr : r ∈ selectResults fs fd k ms) :
    ∃ idx ∈ topIndices fs k, r = (fd.getD idx default, fs.getD idx 0) := by
  rcases List.mem_filterMap.mp hr with ⟨idx, hidx, hsome⟩
  by_cases h : ms ≤ fs.getD idx 0
  · simp only [h, if_true] at hsome
    exact ⟨idx, hidx, (Option.some.inj hsome).symm⟩
  · simp only [h, if_false] at hsome
    exact Option.noConfusion hsome

/-- Every selected index is a position of the score list. -/
lemma mem_topIndices_lt (s : List ℚ) (k idx : ℕ)
    (h : idx ∈ topIndices s k) : idx < s.length := by
  have h1 : idx ∈ (argsort s).reverse := (List.take_sublist _ _).subset h
  have h2 : idx ∈ argsort s := List.mem_reverse.mp h1
  have h3 : idx ∈ List.range s.length :=
    ((List.perm_insertionSort (rankLE s) _).mem_iff).mp h2
  exact List.mem_range.mp h3

/-- When score and document lists have equal length, every result's document
comes from the document list. -/
lemma selectResults_fst_mem (fs : List ℚ) (fd : List Document) (k : ℕ)
    (ms : ℚ) (r : Document × ℚ) (hlen : fd.length = fs.length)
    (hr : r ∈ selectResults fs fd k ms) : r.1 ∈ fd := by
  rcases selectResults_mem_decomp fs fd k ms r hr with ⟨idx, hidx, heq⟩
  have hlt : idx < fd.length := by
    rw [hlen]
    exact mem_topIndices_lt fs k idx hidx
  rw [heq]
  rw [List.getD_eq_getElem fd default hlt]
  exact List.getElem_mem hlt

/-- Claim C2, counterexample: the claim quantifies over every non-`None`
filter value, but the code tests the filter for truthiness, so the
non-`None` empty-string filter `""` applies no filtering at all and a
document whose type code is not `""` is returned. -/
theorem search_empty_string_filter_cex :
    search ⟨[specDoc1], some [[1]]⟩ [1] 1 (some "") 0 = [(specDoc1, 1)] ∧
    (specDoc1, (1 : ℚ)).1.dbti_code ≠ some "" := by
  decide

/-- Claim C2, amended: for every store and similarity vector, when `search`
is called with a non-`None`, non-empty filter value X, every returned result
has its type code equal to X; if no stored document's type code equals X the
result is the empty list rather than an error; and in the spec's
three-document scenario (`specDoc1`/`specDoc3` tagged WTIL, `specDoc2`
tagged DTIL, query equal to the first document's vector, so the similarity
vector is `[1, s2, s3]` with `0 ≤ s3 < 1`), search with `k = 2`,
`filter = "WTIL"`, `min_score = 0.0` returns exactly doc1 then doc3 in
descending-score order with doc2 excluded. -/
theorem filter_correctness :
    (∀ (db : SimpleVectorDB) (sims : List ℚ) (k : ℕ) (X : String) (ms : ℚ),
      X ≠ "" → ∀ r ∈ search db sims k (some X) ms,
        r.1.dbti_code = some X) ∧
    (∀ (db : SimpleVectorDB) (sims : List ℚ) (k : ℕ) (X : String) (ms : ℚ),
      X ≠ "" → (∀ d ∈ db.documents, d.dbti_code ≠ some X) →
        search db sims k (some X) ms = []) ∧
    (∀ (s2 s3 : ℚ) (em : List (List ℚ)), 0 ≤ s3 → s3 < 1 →
      search ⟨[specDoc1, specDoc2, specDoc3], some em⟩ [1, s2, s3] 2
        (some "WTIL") 0 = [(specDoc1, 1), (specDoc3, s3)]) := by
  refine ⟨?_, ?_, ?_⟩
  · intro db sims k X ms hX r hr
    simp only [search, Option.getD_some] at hr
    split at hr
    · cases hr
    · split at hr
      · cases hr
      · have hmem : r.1 ∈ List.map (fun i => db.documents.getD i default)
            ((List.range db.documents.length).filter
              (fun i => (db.documents.getD i default).dbti_code == some X)) :=
          selectResults_fst_mem _ _ _ _ r (by simp) hr
        rcases List.mem_map.mp hmem with ⟨i, hi, heq⟩
        have hpred := (List.mem_filter.mp hi).2
        rw [beq_iff_eq] at hpred
        rw [← heq]
        exact hpred
  · intro db sims k X ms hX hnone
    simp only [search, Option.getD_some]
    split
    · rfl
    · have hfe : (List.range db.documents.length).filter
          (fun i => (db.documents.getD i default).dbti_code == some X) =
          [] := by
        rw [List.filter_eq_nil_iff]
        intro i hi
        have hlt := List.mem_range.mp hi
        have hmem : db.documents.getD i default ∈ db.documents := by
          rw [List.getD_eq_getElem _ _ hlt]
          exact List.getElem_mem hlt
        simp only [beq_iff_eq]
        exact hnone _ hmem
      rw [hfe]
      rfl
  · intro s2 s3 em h0 h1
    have hr01 : ¬ rankLE [1, s3] 0 1 := by
      simp only [rankLE, List.getD_cons_zero, List.getD_cons_succ]
      rintro (h | ⟨h, _⟩)
      · exact absurd (h.trans h1) (lt_irrefl 1)
      · rw [← h] at h1
        exact lt_irrefl 1 h1
    simp only [search, Option.getD_some]
    rw [if_neg (by simp)]
    rw [if_pos (by decide : ("WTIL" : String) ≠ "")]
    have hfi : (List.range
        ([specDoc1, specDoc2, specDoc3] : List Document).length).filter
        (fun i => (([specDoc1, specDoc2, specDoc3] :
          List Document).getD i default).dbti_code == some "WTIL") =
        [0, 2] := by decide
    rw [hfi]
    rw [if_neg (by decide)]
    have hmap1 : ([0, 2] : List ℕ).map
        (fun i => ([1, s2, s3] : List ℚ).getD i 0) = [1, s3] := by
      simp [List.getD]
    have hmap2 : ([0, 2] : List ℕ).map
        (fun i => ([specDoc1, specDoc2, specDoc3] :
          List Document).getD i default) = [specDoc1, specDoc3] := by
      decide
    rw [hmap1, hmap2]
    have hts : topIndices [1, s3] 2 = [0, 1] := by
      simp [topIndices, argsort, List.insertionSort, List.orderedInsert,
        hr01]
    simp only [selectResults, hts, List.filterMap]
    simp only [List.getD_cons_zero, List.getD_cons_succ, h0, if_true,
      zero_le_one, List.filterMap]

/-- Witness for `filter_correctness`: the filter-respecting result set on a
concrete store, the empty result for an unmatched filter, and the scenario
at `s2 = 0`, `s3 = 1/2`. -/
theorem filter_correctness_witness :
    (∀ r ∈ search ⟨[specDoc1, specDoc2, specDoc3], some [[1], [0], [0]]⟩
        [1, 0, 0] 2 (some "WTIL") 0, r.1.dbti_code = some "WTIL") ∧
    search ⟨[specDoc1, specDoc3], some [[1], [1]]⟩ [1, 1] 2 (some "DTIL")
      0 = [] ∧
    search ⟨[specDoc1, specDoc2, specDoc3], some [[1], [0], [0]]⟩
        [1, 0, mkRat 1 2] 2 (some "WTIL") 0 =
      [(specDoc1, 1), (specDoc3, mkRat 1 2)] :=
  ⟨filter_correctness.1 ⟨[specDoc1, specDoc2, specDoc3],
      some [[1], [0], [0]]⟩ [1, 0, 0] 2 "WTIL" 0 (by decide),
    filter_correctness.2.1 ⟨[specDoc1, specDoc3], some [[1], [1]]⟩ [1, 1] 2
      "DTIL" 0 (by decide) (by decide),
    filter_correctness.2.2 0 (mkRat 1 2) [[1], [0], [0]] (by decide)
      (by decide)⟩

end Pawsonality
